import Mathlib

/-!
Verification development for the devenv-sandbox launcher
(src/devenv-sandbox/src/main.rs).

The program reads DEVENV_ROOT, XDG_RUNTIME_DIR and HOME from the process
environment, builds a Landlock ruleset (ABI V2) allowlisting a fixed set of
paths, applies it to itself, and then spawns the target command, forwarding
its exit status.

The embedding models:
 - the Landlock access rights (AccessFs) and ABI versions, with
   AccessFs.fromAll / AccessFs.fromRead following the landlock crate;
 - the landlock crate helper path_beneath_rules, which silently skips paths
   that cannot be opened and restricts the requested rights to the
   file-applicable subset when the opened path is not a directory;
 - the fallible kernel steps (handle_access, create, add_rules,
   restrict_self) through an oracle structure Kernel;
 - the spawn step through an oracle in the environment;
 - the control flow of main as a pure function from an environment record
   to a structured outcome (exit code, whether sandboxing was attempted,
   whether the spawn was attempted, which enforcement status was reported).
-/

namespace DevenvSandbox

/-- Landlock filesystem access rights, as enumerated by the landlock crate
across all ABI versions (V1 rights, plus refer from V2, truncate from V3,
ioctlDev from V5). -/
inductive AccessFs where
  | execute
  | writeFile
  | readFile
  | readDir
  | removeDir
  | removeFile
  | makeChar
  | makeDir
  | makeReg
  | makeSock
  | makeFifo
  | makeBlock
  | makeSym
  | refer
  | truncate
  | ioctlDev
deriving DecidableEq, Repr

/-- Landlock ABI versions known to the landlock crate (filesystem-relevant
ones; V4 added only network rights, so its filesystem set equals V3). -/
inductive ABI where
  | v1
  | v2
  | v3
  | v4
  | v5
deriving DecidableEq, Repr

namespace AccessFs

/-- The thirteen filesystem access rights of Landlock ABI V1. -/
def fromAllV1 : Finset AccessFs :=
  {execute, writeFile, readFile, readDir, removeDir, removeFile,
   makeChar, makeDir, makeReg, makeSock, makeFifo, makeBlock, makeSym}

/-- AccessFs::from_all of the landlock crate: every filesystem access right
known to the given ABI version. -/
def fromAll : ABI → Finset AccessFs
  | .v1 => fromAllV1
  | .v2 => insert refer fromAllV1
  | .v3 => insert truncate (insert refer fromAllV1)
  | .v4 => insert truncate (insert refer fromAllV1)
  | .v5 => insert ioctlDev (insert truncate (insert refer fromAllV1))

/-- AccessFs::from_read of the landlock crate: the read-only rights, the
same fixed set for every supported ABI version. -/
def fromRead : ABI → Finset AccessFs :=
  fun _ => {execute, readFile, readDir}

/-- ACCESS_FILE of the landlock crate: the rights that make sense on a
non-directory file; path_beneath_rules intersects the requested rights with
this set when the opened path is not a directory. -/
def accessFile : Finset AccessFs :=
  {readFile, writeFile, execute, truncate, ioctlDev}

end AccessFs

/-- A Landlock PathBeneath rule: a path together with the set of access
rights granted beneath it. -/
structure PathRule where
  path : String
  access : Finset AccessFs
deriving DecidableEq

/-- A Landlock ruleset: the declared handled access rights plus the list of
path rules added to it. -/
structure RuleSet where
  handled : Finset AccessFs
  rules : List PathRule
deriving DecidableEq

/-- The access-right adjustment performed by the landlock crate helper
path_beneath_rules: when the opened path is not a directory (is_file), the
requested rights are intersected with the file-applicable rights. -/
def adjustAccess (isFile : String → Bool) (p : String) (access : Finset AccessFs) :
    Finset AccessFs :=
  if isFile p then access ∩ AccessFs.accessFile else access

/-- The landlock crate helper path_beneath_rules: one rule per path that can
be opened (paths that do not exist are silently skipped), with the requested
rights adjusted to the file type. The oracle pathExists tells which paths
can be opened; isFile tells which opened paths are not directories. -/
def path_beneath_rules (pathExists isFile : String → Bool)
    (paths : List String) (access : Finset AccessFs) : List PathRule :=
  paths.filterMap fun p =>
    if pathExists p then some ⟨p, adjustAccess isFile p access⟩ else none

/-- The first list of paths passed to path_beneath_rules in
setup_landlock_sandbox, granted AccessFs::from_all(abi): the sandbox root,
the runtime directory, HOME/.cache/uv (built by string concatenation),
/proc, /tmp, /dev/tty and /dev/null. -/
def allowPaths (devenv_root runtime_dir home : String) : List String :=
  [devenv_root, runtime_dir, home ++ "/.cache/uv",
   "/proc", "/tmp", "/dev/tty", "/dev/null"]

/-- The second list of paths passed to path_beneath_rules in
setup_landlock_sandbox, granted AccessFs::from_read(abi). -/
def readOnlyPaths : List String :=
  ["/nix", "/proc/stat"]

/-- let abi = ABI::V2 in setup_landlock_sandbox. -/
def abi : ABI := ABI.v2

/-- The ruleset built by setup_landlock_sandbox: handled access is
AccessFs::from_all(ABI::V2); the rules are the full-access rules over
allowPaths followed by the read-only rules over readOnlyPaths, each filtered
and adjusted by path_beneath_rules. -/
def buildRuleSet (pathExists isFile : String → Bool)
    (devenv_root runtime_dir home : String) : RuleSet :=
  ⟨AccessFs.fromAll abi,
   path_beneath_rules pathExists isFile (allowPaths devenv_root runtime_dir home)
       (AccessFs.fromAll abi)
     ++ path_beneath_rules pathExists isFile readOnlyPaths (AccessFs.fromRead abi)⟩

/-- RulesetStatus of the landlock crate: how much of the requested policy
the running kernel actually enforced. -/
inductive RulesetStatus where
  | fullyEnforced
  | partiallyEnforced
  | notEnforced
deriving DecidableEq, Repr

/-- RulesetError of the landlock crate: an unexpected error from one of the
ruleset operations (not a gracefully degraded capability gap). -/
structure RulesetError where
  errno : Nat
deriving DecidableEq, Repr

/-- Oracle for the fallible kernel-facing steps of setup_landlock_sandbox:
each field gives the error (if any) produced by the corresponding landlock
call, and restrictStatus gives the enforcement status reported by
restrict_self when it succeeds. addRuleErr is consulted once per rule
actually added. -/
structure Kernel where
  handleAccessErr : Option RulesetError
  createErr : Option RulesetError
  addRuleErr : PathRule → Option RulesetError
  restrictErr : Option RulesetError
  restrictStatus : RulesetStatus

/-- add_rules on a created ruleset: the first error produced while adding
the given rules, if any. -/
def addRulesErr (k : Kernel) (rules : List PathRule) : Option RulesetError :=
  rules.findSome? k.addRuleErr

/-- setup_landlock_sandbox: chain handle_access, create, the two add_rules
calls and restrict_self, propagating the first error; on success return the
RulesetStatus field of the restriction status. -/
def setup_landlock_sandbox (k : Kernel) (pathExists isFile : String → Bool)
    (devenv_root runtime_dir home : String) : Except RulesetError RulesetStatus :=
  match k.handleAccessErr with
  | some e => .error e
  | none =>
    match k.createErr with
    | some e => .error e
    | none =>
      match addRulesErr k (path_beneath_rules pathExists isFile
          (allowPaths devenv_root runtime_dir home) (AccessFs.fromAll abi)) with
      | some e => .error e
      | none =>
        match addRulesErr k (path_beneath_rules pathExists isFile
            readOnlyPaths (AccessFs.fromRead abi)) with
        | some e => .error e
        | none =>
          match k.restrictErr with
          | some e => .error e
          | none => .ok k.restrictStatus

/-- std::process::ExitStatus: either a normal exit with a code
(status.code() = Some c) or termination by signal (status.code() = None). -/
inductive ExitStatus where
  | exited (code : Int)
  | signaled
deriving DecidableEq, Repr

/-- status.code().unwrap_or(1): the child's exit code when it exited
normally, 1 when it was terminated by a signal. -/
def ExitStatus.codeOr1 : ExitStatus → Int
  | .exited c => c
  | .signaled => 1

/-- std::io::Error kinds relevant to Command::status failing: the command
was not found, access was denied, or some other spawn failure. -/
inductive IoError where
  | notFound
  | permissionDenied
  | other
deriving DecidableEq, Repr

/-- The process environment and external behaviour an invocation runs
against: argv, the three environment variables (none = unset), the
filesystem oracles, the kernel oracle, and the spawn oracle giving the
result of Command::new(command).args(args).status(). -/
structure Env where
  argv : List String
  devenv_root : Option String
  runtime_dir : Option String
  home : Option String
  pathExists : String → Bool
  isFile : String → Bool
  kernel : Kernel
  spawn : String → List String → Except IoError ExitStatus

/-- execute_command: spawn the command with the given arguments and return
its exit status (or the I/O error). -/
def execute_command (env : Env) (command : String) (args : List String) :
    Except IoError ExitStatus :=
  env.spawn command args

/-- The observable outcome of one invocation of the tool: the process exit
code, whether setup_landlock_sandbox was reached, whether the spawn of the
target command was attempted, and which enforcement status (if any) was
reported before launching. -/
structure Outcome where
  exitCode : Int
  sandboxAttempted : Bool
  spawnAttempted : Bool
  reported : Option RulesetStatus
deriving DecidableEq, Repr

/-- main: check argv length, read DEVENV_ROOT, XDG_RUNTIME_DIR and HOME
(exit 1 if any is unset), check that the sandbox root exists (exit 1 if
not), run setup_landlock_sandbox (exit 1 on error, otherwise report the
status and continue in all three cases), then execute the target command
args[1] with arguments args[2..] (exit 1 if the spawn fails) and exit with
the child's exit code, or 1 if the child was terminated by a signal. -/
def main (env : Env) : Outcome :=
  if env.argv.length < 2 then ⟨1, false, false, none⟩
  else
    match env.devenv_root with
    | none => ⟨1, false, false, none⟩
    | some devenv_root =>
      match env.runtime_dir with
      | none => ⟨1, false, false, none⟩
      | some runtime_dir =>
        match env.home with
        | none => ⟨1, false, false, none⟩
        | some home =>
          if !env.pathExists devenv_root then ⟨1, false, false, none⟩
          else
            match setup_landlock_sandbox env.kernel env.pathExists env.isFile
                devenv_root runtime_dir home with
            | .error _ => ⟨1, true, false, none⟩
            | .ok status =>
              match execute_command env (env.argv[1]!) (env.argv.drop 2) with
              | .error _ => ⟨1, true, true, some status⟩
              | .ok st => ⟨st.codeOr1, true, true, some status⟩

/-! ### Concrete instances used by witnesses and counterexamples -/

/-- A kernel oracle on which every landlock call succeeds, with the given
enforcement status reported by restrict_self. -/
def kernelOkWith (s : RulesetStatus) : Kernel :=
  ⟨none, none, fun _ => none, none, s⟩

/-- A kernel oracle on which the initial handle_access call fails. -/
def kernelBad : Kernel :=
  ⟨some ⟨22⟩, none, fun _ => none, none, RulesetStatus.fullyEnforced⟩

/-- A kernel oracle that errors on any rule for the path /tmp and succeeds
on everything else. -/
def kernelTmpErr : Kernel :=
  ⟨none, none, fun rule => if rule.path == "/tmp" then some ⟨13⟩ else none,
   none, RulesetStatus.fullyEnforced⟩

/-- A realistic file-type oracle: /dev/tty, /dev/null and /proc/stat are not
directories; everything else allowlisted is. -/
def isFileReal : String → Bool :=
  fun p => p == "/dev/tty" || p == "/dev/null" || p == "/proc/stat"

/-- Base concrete environment: two argv entries, all variables set, every
path exists, everything is a directory, clean kernel, child exits 0. -/
def envBase : Env :=
  ⟨["devenv-sandbox", "prog"], some "/r", some "/run", some "/h",
   fun _ => true, fun _ => false, kernelOkWith RulesetStatus.fullyEnforced,
   fun _ _ => Except.ok (ExitStatus.exited 0)⟩

/-- Concrete environment whose child exits with code 42. -/
def envExit42 : Env :=
  { envBase with spawn := fun _ _ => Except.ok (ExitStatus.exited 42) }

/-- Concrete environment whose child is terminated by a signal. -/
def envSignaled : Env :=
  { envBase with spawn := fun _ _ => Except.ok ExitStatus.signaled }

/-- Concrete environment with DEVENV_ROOT unset. -/
def envNoRoot : Env :=
  { envBase with devenv_root := none }

/-- Concrete environment in which the sandbox root path does not exist. -/
def envRootMissing : Env :=
  { envBase with pathExists := fun _ => false }

/-- Concrete environment on which setup_landlock_sandbox fails. -/
def envPolicyErr : Env :=
  { envBase with kernel := kernelBad }

/-- Concrete environment on which the spawn of the target command fails. -/
def envSpawnFail : Env :=
  { envBase with spawn := fun _ _ => Except.error IoError.notFound }

/-- Concrete environment with HOME set to the empty string. -/
def envEmptyHome : Env :=
  { envBase with home := some "" }

/-- Concrete environment with XDG_RUNTIME_DIR set to the empty string. -/
def envEmptyRuntime : Env :=
  { envBase with runtime_dir := some "" }

/-- Concrete environment on which enforcement is only degraded. -/
def envDegraded : Env :=
  { envBase with kernel := kernelOkWith RulesetStatus.partiallyEnforced }

/-- Concrete environment on which the landlock mechanism is absent. -/
def envAbsent : Env :=
  { envBase with kernel := kernelOkWith RulesetStatus.notEnforced }

/-- Concrete environment in which /tmp does not exist and the kernel would
reject any rule for /tmp. -/
def envNoTmp : Env :=
  { envBase with pathExists := fun q => !(q == "/tmp"), kernel := kernelTmpErr }

/-! ### Helper lemmas -/

/-- Membership in the output of path_beneath_rules: exactly the rules whose
path is in the input list and exists, carrying the type-adjusted access. -/
lemma mem_path_beneath_rules {pathExists isFile : String → Bool}
    {paths : List String} {access : Finset AccessFs} {rule : PathRule} :
    rule ∈ path_beneath_rules pathExists isFile paths access ↔
      rule.path ∈ paths ∧ pathExists rule.path = true ∧
        rule.access = adjustAccess isFile rule.path access := by
  simp only [path_beneath_rules, List.mem_filterMap]
  constructor
  · rintro ⟨p, hp, hf⟩
    by_cases hpe : pathExists p
    · rw [if_pos hpe] at hf
      simp only [Option.some.injEq] at hf
      subst hf
      exact ⟨hp, hpe, rfl⟩
    · rw [if_neg hpe] at hf
      exact Option.noConfusion hf
  · rintro ⟨hp, hpe, hacc⟩
    obtain ⟨p, a⟩ := rule
    refine ⟨p, hp, ?_⟩
    rw [if_pos hpe]
    simp only [Option.some.injEq, PathRule.mk.injEq, true_and]
    exact hacc.symm

/-- Reduction of main on the happy path up to the spawn: with enough argv,
all three variables set, an existing root and a successful enforcement, main
is the dispatch on the spawn result. -/
lemma main_happy (env : Env) (r rt h : String) (s : RulesetStatus)
    (hargv : ¬ env.argv.length < 2)
    (hroot : env.devenv_root = some r) (hrt : env.runtime_dir = some rt)
    (hhome : env.home = some h) (hex : env.pathExists r = true)
    (hsetup : setup_landlock_sandbox env.kernel env.pathExists env.isFile r rt h
      = Except.ok s) :
    main env =
      match env.spawn (env.argv[1]!) (env.argv.drop 2) with
      | .error _ => ⟨1, true, true, some s⟩
      | .ok st => ⟨st.codeOr1, true, true, some s⟩ := by
  simp only [main, if_neg hargv, hroot, hrt, hhome, hex, Bool.not_true,
    Bool.false_eq_true, if_false, hsetup, execute_command]

/-! ### Claim theorems -/

/-- C1: when the child terminates with a normal exit code c, the tool exits
with c; when the child is terminated by a signal (no exit code), the tool
exits with 1. -/
theorem exit_code_propagation (env : Env) (r rt h : String) (s : RulesetStatus)
    (hargv : ¬ env.argv.length < 2)
    (hroot : env.devenv_root = some r) (hrt : env.runtime_dir = some rt)
    (hhome : env.home = some h) (hex : env.pathExists r = true)
    (hsetup : setup_landlock_sandbox env.kernel env.pathExists env.isFile r rt h
      = Except.ok s) :
    (∀ c : Int,
      env.spawn (env.argv[1]!) (env.argv.drop 2) = Except.ok (ExitStatus.exited c) →
        (main env).exitCode = c) ∧
    (env.spawn (env.argv[1]!) (env.argv.drop 2) = Except.ok ExitStatus.signaled →
        (main env).exitCode = 1) := by
  rw [main_happy env r rt h s hargv hroot hrt hhome hex hsetup]
  constructor
  · intro c hspawn
    rw [hspawn]
    rfl
  · intro hspawn
    rw [hspawn]
    rfl

/-- Witness for C1: a child exiting with 42 yields outer exit code 42, and a
signaled child yields outer exit code 1, on concrete environments. -/
theorem exit_code_propagation_witness :
    (main envExit42).exitCode = 42 ∧ (main envSignaled).exitCode = 1 :=
  ⟨(exit_code_propagation envExit42 "/r" "/run" "/h" RulesetStatus.fullyEnforced
      (by decide) rfl rfl rfl rfl rfl).1 42 rfl,
   (exit_code_propagation envSignaled "/r" "/run" "/h" RulesetStatus.fullyEnforced
      (by decide) rfl rfl rfl rfl rfl).2 rfl⟩

/-- C2: if DEVENV_ROOT, XDG_RUNTIME_DIR or HOME is unset, the tool exits 1,
never reaches setup_landlock_sandbox and never attempts the spawn. -/
theorem missing_env_exits_one (env : Env)
    (hmiss : env.devenv_root = none ∨ env.runtime_dir = none ∨ env.home = none) :
    main env = ⟨1, false, false, none⟩ := by
  by_cases hargv : env.argv.length < 2
  · simp only [main, if_pos hargv]
  · rcases hmiss with hm | hm | hm
    · simp only [main, if_neg hargv, hm]
    · cases hdr : env.devenv_root with
      | none => simp only [main, if_neg hargv, hdr]
      | some r => simp only [main, if_neg hargv, hdr, hm]
    · cases hdr : env.devenv_root with
      | none => simp only [main, if_neg hargv, hdr]
      | some r =>
        cases hrtc : env.runtime_dir with
        | none => simp only [main, if_neg hargv, hdr, hrtc]
        | some rt2 => simp only [main, if_neg hargv, hdr, hrtc, hm]

/-- Witness for C2: a concrete environment with DEVENV_ROOT unset exits 1
with no sandboxing and no spawn. -/
theorem missing_env_exits_one_witness :
    main envNoRoot = ⟨1, false, false, none⟩ :=
  missing_env_exits_one envNoRoot (Or.inl rfl)

/-- C3: if all three variables are set but the sandbox root path does not
exist, the tool exits 1 before any enforcement attempt and never attempts
the spawn. -/
theorem missing_root_exits_one (env : Env) (r rt h : String)
    (hroot : env.devenv_root = some r) (hrt : env.runtime_dir = some rt)
    (hhome : env.home = some h) (hex : env.pathExists r = false) :
    main env = ⟨1, false, false, none⟩ := by
  by_cases hargv : env.argv.length < 2
  · simp only [main, if_pos hargv]
  · simp [main, if_neg hargv, hroot, hrt, hhome, hex]

/-- Witness for C3: a concrete environment whose root path is missing exits
1 with no sandboxing and no spawn. -/
theorem missing_root_exits_one_witness :
    main envRootMissing = ⟨1, false, false, none⟩ :=
  missing_root_exits_one envRootMissing "/r" "/run" "/h" rfl rfl rfl rfl

/-- C5: whatever status enforcement returns (fully, partially or not
enforced), main reports that status and still proceeds to attempt the spawn
of the target command; no status value causes an early exit. -/
theorem enforcement_status_reported_and_proceeds (env : Env) (r rt h : String)
    (s : RulesetStatus)
    (hargv : ¬ env.argv.length < 2)
    (hroot : env.devenv_root = some r) (hrt : env.runtime_dir = some rt)
    (hhome : env.home = some h) (hex : env.pathExists r = true)
    (hsetup : setup_landlock_sandbox env.kernel env.pathExists env.isFile r rt h
      = Except.ok s) :
    (main env).reported = some s ∧ (main env).spawnAttempted = true := by
  rw [main_happy env r rt h s hargv hroot hrt hhome hex hsetup]
  cases hsp : env.spawn (env.argv[1]!) (env.argv.drop 2) with
  | error e => exact ⟨rfl, rfl⟩
  | ok st => exact ⟨rfl, rfl⟩

/-- Witness for C5: concrete environments realizing each of the three
enforcement statuses all report the status and proceed to spawn. -/
theorem enforcement_status_reported_and_proceeds_witness :
    ((main envBase).reported = some RulesetStatus.fullyEnforced ∧
      (main envBase).spawnAttempted = true) ∧
    ((main envDegraded).reported = some RulesetStatus.partiallyEnforced ∧
      (main envDegraded).spawnAttempted = true) ∧
    ((main envAbsent).reported = some RulesetStatus.notEnforced ∧
      (main envAbsent).spawnAttempted = true) :=
  ⟨enforcement_status_reported_and_proceeds envBase "/r" "/run" "/h"
      RulesetStatus.fullyEnforced (by decide) rfl rfl rfl rfl rfl,
   enforcement_status_reported_and_proceeds envDegraded "/r" "/run" "/h"
      RulesetStatus.partiallyEnforced (by decide) rfl rfl rfl rfl rfl,
   enforcement_status_reported_and_proceeds envAbsent "/r" "/run" "/h"
      RulesetStatus.notEnforced (by decide) rfl rfl rfl rfl rfl⟩

/-- C6: if the ruleset construction or enforcement chain returns an error,
the tool exits 1 and the target command is never spawned. -/
theorem policy_error_exits_one (env : Env) (r rt h : String) (e : RulesetError)
    (hroot : env.devenv_root = some r) (hrt : env.runtime_dir = some rt)
    (hhome : env.home = some h)
    (hsetup : setup_landlock_sandbox env.kernel env.pathExists env.isFile r rt h
      = Except.error e) :
    (main env).exitCode = 1 ∧ (main env).spawnAttempted = false := by
  by_cases hargv : env.argv.length < 2
  · simp only [main, if_pos hargv]
    exact ⟨by trivial, by trivial⟩
  · by_cases hex : env.pathExists r
    · simp only [main, if_neg hargv, hroot, hrt, hhome, hex, Bool.not_true,
        Bool.false_eq_true, if_false, hsetup]
      exact ⟨by trivial, by trivial⟩
    · rw [Bool.not_eq_true] at hex
      simp only [main, if_neg hargv, hroot, hrt, hhome, hex, Bool.not_false, if_true]
      exact ⟨by trivial, by trivial⟩

/-- Witness for C6: a concrete environment on which the first landlock call
fails exits 1 without spawning. -/
theorem policy_error_exits_one_witness :
    (main envPolicyErr).exitCode = 1 ∧ (main envPolicyErr).spawnAttempted = false :=
  policy_error_exits_one envPolicyErr "/r" "/run" "/h" ⟨22⟩ rfl rfl rfl rfl

/-- C7: if the spawn of the target command fails with an I/O error, the
tool exits 1 (after having attempted the spawn). -/
theorem spawn_error_exits_one (env : Env) (r rt h : String) (s : RulesetStatus)
    (err : IoError)
    (hargv : ¬ env.argv.length < 2)
    (hroot : env.devenv_root = some r) (hrt : env.runtime_dir = some rt)
    (hhome : env.home = some h) (hex : env.pathExists r = true)
    (hsetup : setup_landlock_sandbox env.kernel env.pathExists env.isFile r rt h
      = Except.ok s)
    (hspawn : env.spawn (env.argv[1]!) (env.argv.drop 2) = Except.error err) :
    (main env).exitCode = 1 ∧ (main env).spawnAttempted = true := by
  rw [main_happy env r rt h s hargv hroot hrt hhome hex hsetup, hspawn]
  exact ⟨rfl, rfl⟩

/-- Witness for C7: a concrete environment whose command is not found exits
1 after attempting the spawn. -/
theorem spawn_error_exits_one_witness :
    (main envSpawnFail).exitCode = 1 ∧ (main envSpawnFail).spawnAttempted = true :=
  spawn_error_exits_one envSpawnFail "/r" "/run" "/h" RulesetStatus.fullyEnforced
    IoError.notFound (by decide) rfl rfl rfl rfl rfl rfl

/-- C4 counterexample: in a realistic environment where every allowlisted
path exists and /dev/tty, /dev/null and /proc/stat are not directories, the
only rule for /dev/null carries the file-adjusted rights
{execute, writeFile, readFile}, which differ from the full ABI V2 set — so
the ruleset does not grant the full AccessRight set on /dev/null. -/
theorem ruleset_full_grant_counterexample :
    ((buildRuleSet (fun _ => true) isFileReal "/r" "/run" "/h").rules.filter
        (fun rule => rule.path == "/dev/null"))
      = [⟨"/dev/null",
          {AccessFs.execute, AccessFs.writeFile, AccessFs.readFile}⟩] ∧
    ({AccessFs.execute, AccessFs.writeFile, AccessFs.readFile} : Finset AccessFs)
      ≠ AccessFs.fromAll ABI.v2 := by
  constructor
  · decide
  · decide

/-- C4 (amended): the ruleset declares the full ABI V2 access set as
handled, and its rules are exactly: for each path of the allowlist that
exists, the full ABI V2 set adjusted to the file type (intersected with the
file-applicable rights when the path is not a directory), and for each
read-only path that exists, the read-only set likewise adjusted; no rule is
generated for any other path. -/
theorem ruleset_rules_characterization (pathExists isFile : String → Bool)
    (devenv_root runtime_dir home : String) (rule : PathRule) :
    (buildRuleSet pathExists isFile devenv_root runtime_dir home).handled
        = AccessFs.fromAll ABI.v2 ∧
    (rule ∈ (buildRuleSet pathExists isFile devenv_root runtime_dir home).rules ↔
      (rule.path ∈ allowPaths devenv_root runtime_dir home ∧
        pathExists rule.path = true ∧
        rule.access = adjustAccess isFile rule.path (AccessFs.fromAll ABI.v2)) ∨
      (rule.path ∈ readOnlyPaths ∧ pathExists rule.path = true ∧
        rule.access = adjustAccess isFile rule.path (AccessFs.fromRead ABI.v2))) := by
  refine ⟨rfl, ?_⟩
  simp only [buildRuleSet, abi, List.mem_append, mem_path_beneath_rules]

/-- C8: an optional allowlisted path (one other than the sandbox root) that
does not exist contributes no rule at all, and ruleset construction and
enforcement still succeed — even on a kernel that would reject any rule for
that path — because the rule is skipped before registration. -/
theorem missing_optional_path_skipped (pathExists isFile : String → Bool)
    (devenv_root runtime_dir home : String) (k : Kernel) (p : String)
    (_hp : p ∈ allowPaths devenv_root runtime_dir home ++ readOnlyPaths)
    (_hne : p ≠ devenv_root)
    (hpe : pathExists p = false)
    (hha : k.handleAccessErr = none) (hcr : k.createErr = none)
    (hre : k.restrictErr = none)
    (hadd : ∀ rule : PathRule, rule.path ≠ p → k.addRuleErr rule = none) :
    (∀ rule ∈ (buildRuleSet pathExists isFile devenv_root runtime_dir home).rules,
        rule.path ≠ p) ∧
    setup_landlock_sandbox k pathExists isFile devenv_root runtime_dir home
      = Except.ok k.restrictStatus := by
  have key : ∀ (paths : List String) (access : Finset AccessFs),
      addRulesErr k (path_beneath_rules pathExists isFile paths access) = none := by
    intro paths access
    rw [addRulesErr, List.findSome?_eq_none_iff]
    intro rule hr
    rcases mem_path_beneath_rules.mp hr with ⟨_, hpe2, _⟩
    apply hadd
    intro hcontra
    rw [hcontra, hpe] at hpe2
    exact Bool.noConfusion hpe2
  constructor
  · intro rule hr hcontra
    simp only [buildRuleSet, List.mem_append, mem_path_beneath_rules] at hr
    rcases hr with ⟨_, hpe2, _⟩ | ⟨_, hpe2, _⟩ <;>
      (rw [hcontra, hpe] at hpe2; exact Bool.noConfusion hpe2)
  · simp only [setup_landlock_sandbox, hha, hcr, key, hre]

/-- Witness for C8: with /tmp absent and a kernel that rejects exactly the
rules for /tmp, no rule mentions /tmp and setup still fully succeeds. -/
theorem missing_optional_path_skipped_witness :
    (∀ rule ∈ (buildRuleSet (fun q => !(q == "/tmp")) (fun _ => false)
        "/r" "/run" "/h").rules, rule.path ≠ "/tmp") ∧
    setup_landlock_sandbox kernelTmpErr (fun q => !(q == "/tmp")) (fun _ => false)
        "/r" "/run" "/h"
      = Except.ok RulesetStatus.fullyEnforced :=
  missing_optional_path_skipped (fun q => !(q == "/tmp")) (fun _ => false)
    "/r" "/run" "/h" kernelTmpErr "/tmp" (by decide) (by decide) rfl rfl rfl rfl
    (fun rule hner => by simp only [kernelTmpErr, beq_iff_eq, if_neg hner])

/-- C9: whatever the inputs, the declared handled access set is exactly the
full AccessFs set of the fixed constant ABI V2; rights introduced by later
ABI versions (truncate in V3, ioctlDev in V5) are never declared handled. -/
theorem handled_access_is_abi_v2 (pathExists isFile : String → Bool)
    (devenv_root runtime_dir home : String) :
    (buildRuleSet pathExists isFile devenv_root runtime_dir home).handled
        = AccessFs.fromAll ABI.v2 ∧
    AccessFs.truncate ∉
      (buildRuleSet pathExists isFile devenv_root runtime_dir home).handled ∧
    AccessFs.ioctlDev ∉
      (buildRuleSet pathExists isFile devenv_root runtime_dir home).handled ∧
    AccessFs.truncate ∈ AccessFs.fromAll ABI.v3 ∧
    AccessFs.ioctlDev ∈ AccessFs.fromAll ABI.v5 := by
  refine ⟨rfl, ?_, ?_, ?_, ?_⟩
  · show AccessFs.truncate ∉ AccessFs.fromAll ABI.v2
    decide
  · show AccessFs.ioctlDev ∉ AccessFs.fromAll ABI.v2
    decide
  · decide
  · decide

/-- C10: the environment values are validated only for presence, not for
content: an invocation in which HOME (or XDG_RUNTIME_DIR) is set to the
empty string does not exit with a configuration error but proceeds to the
enforcement step, and an empty HOME makes the concatenation-built home
cache entry of the allowlist the path /.cache/uv. -/
theorem presence_only_validation (env : Env) (r rt hm : String)
    (hargv : ¬ env.argv.length < 2)
    (hroot : env.devenv_root = some r) (hrt : env.runtime_dir = some rt)
    (hhome : env.home = some hm) (hex : env.pathExists r = true)
    (_hempty : rt = "" ∨ hm = "") :
    (main env).sandboxAttempted = true ∧
    (hm = "" → allowPaths r rt hm = [r, rt, "/.cache/uv", "/proc", "/tmp",
      "/dev/tty", "/dev/null"]) := by
  constructor
  · cases hsetup : setup_landlock_sandbox env.kernel env.pathExists env.isFile
        r rt hm with
    | error e =>
      simp only [main, if_neg hargv, hroot, hrt, hhome, hex, Bool.not_true,
        Bool.false_eq_true, if_false, hsetup]
    | ok s =>
      rw [main_happy env r rt hm s hargv hroot hrt hhome hex hsetup]
      cases hsp : env.spawn (env.argv[1]!) (env.argv.drop 2) <;> rfl
  · intro hhm
    subst hhm
    rfl

/-- Witness for C10: a concrete environment with HOME set to the empty
string reaches the enforcement step with the /.cache/uv allowlist entry,
and a concrete environment with XDG_RUNTIME_DIR set to the empty string
also reaches the enforcement step. -/
theorem presence_only_validation_witness :
    ((main envEmptyHome).sandboxAttempted = true ∧
      allowPaths "/r" "/run" "" = ["/r", "/run", "/.cache/uv", "/proc", "/tmp",
        "/dev/tty", "/dev/null"]) ∧
    (main envEmptyRuntime).sandboxAttempted = true :=
  ⟨⟨(presence_only_validation envEmptyHome "/r" "/run" "" (by decide) rfl rfl rfl
        rfl (Or.inr rfl)).1,
    (presence_only_validation envEmptyHome "/r" "/run" "" (by decide) rfl rfl rfl
        rfl (Or.inr rfl)).2 rfl⟩,
   (presence_only_validation envEmptyRuntime "/r" "" "/h" (by decide) rfl rfl rfl
        rfl (Or.inl rfl)).1⟩

end DevenvSandbox
